import Mathlib

/-!
Verification of the workout-timer core: a shallow embedding of
`backend_scaffold.py` (the deterministic segment generator and the
server-authoritative session timer) and `workout_parser.py` (the lenient
line-oriented extractor for LLM-authored workout text), with the spec's
claims settled as theorems about the embedding.

Conventions: Python `int` becomes `Nat`/`Int`; Python `float` is modelled
as an exact rational `ℚ` (the verified properties are exact equalities and
sign conditions that do not depend on rounding); Python's
`random.Random(seed)` becomes an explicit PRNG state threaded through the
computation; the monotonic clock is passed to each session operation as an
explicit `now : ℚ` argument.
-/

set_option maxRecDepth 8000

namespace WorkoutTimer

/-- The allowed `IntervalSegment.label` values (`backend_scaffold.py` line 97). -/
inductive Label where
  | warmup
  | steady
  | push
  | recovery
  | cooldown
deriving DecidableEq

instance : Inhabited Label := ⟨Label.steady⟩

/-- `IntervalSegment` (`backend_scaffold.py` lines 92–97). -/
structure IntervalSegment where
  index : Nat
  duration_s : Nat
  speed_mph : ℚ
  incline_pct : ℚ
  label : Label
deriving DecidableEq

instance : Inhabited IntervalSegment := ⟨⟨0, 0, 0, 0, Label.steady⟩⟩

/-- Model of Python's `random.Random(seed)`: a PRNG whose entire draw stream
is a pure function of the seed.  The concrete step below is a linear
congruential generator rather than CPython's Mersenne twister; every theorem
in this file either holds for an arbitrary draw stream (the supporting lemmas
quantify over the PRNG state) or uses only the fact that the stream is
determined by the seed, so the substitution does not weaken any claim. -/
structure PyRandom where
  state : Nat
deriving DecidableEq

/-- `random.Random(seed)`: derive the initial PRNG state from the seed alone. -/
def mkRandom (seed : Int) : PyRandom :=
  ⟨(seed.emod 2147483647).toNat⟩

/-- One PRNG step (linear congruential), returning a draw and the new state. -/
def randStep (r : PyRandom) : Nat × PyRandom :=
  let s := (r.state * 1103515245 + 12345) % 2147483648
  (s / 65536, ⟨s⟩)

/-- `rnd.choice(seq)`: pick an element determined by the next PRNG draw.
Every call site passes a concrete nonempty list, so the `getD` default is
never read (`pyChoice_fst_mem`). -/
def pyChoice [Inhabited α] (r : PyRandom) (l : List α) : α × PyRandom :=
  let p := randStep r
  (l.getD (p.1 % l.length) default, p.2)

/-- `STEADY_SPEEDS` (`backend_scaffold.py` line 126). -/
def STEADY_SPEEDS : List ℚ := [5.8, 6.0, 6.1, 6.3]

/-- `PUSH_SPEEDS` (`backend_scaffold.py` line 127). -/
def PUSH_SPEEDS : List ℚ := [6.7, 6.9, 7.0, 7.1]

/-- `INCLINES` (`backend_scaffold.py` line 128). -/
def INCLINES : List ℚ := [0, 1, 1, 2, 3]

/-- The alternating steady/push `while remain > 0` loop of
`_generate_segments` (`backend_scaffold.py` lines 140–150), with the PRNG
threaded explicitly.  `fuel` bounds the number of iterations: every iteration
strictly decreases `remain` (the chosen block lengths are all positive), so
calling with `fuel = remain` reproduces the Python loop exactly; the lemmas
below are proved under `remain ≤ fuel`. -/
def genLoopF : Nat → PyRandom → Nat → Nat → List IntervalSegment × PyRandom
  | 0, rnd, _, _ => ([], rnd)
  | fuel + 1, rnd, remain, idx =>
    if remain = 0 then ([], rnd) else
      -- `d1 = min(remain, rnd.choice([120, 180, 240]))`
      let p1 := pyChoice rnd [120, 180, 240]
      let d1 := min remain p1.1
      let p2 := pyChoice p1.2 STEADY_SPEEDS
      let p3 := pyChoice p2.2 INCLINES
      let seg1 : IntervalSegment := ⟨idx, d1, p2.1, p3.1, Label.steady⟩
      let remain1 := remain - d1
      -- `if remain <= 0: break`
      if remain1 = 0 then ([seg1], p3.2) else
        -- `d2 = min(remain, rnd.choice([60, 90, 120]))`
        let p4 := pyChoice p3.2 [60, 90, 120]
        let d2 := min remain1 p4.1
        let p5 := pyChoice p4.2 PUSH_SPEEDS
        let p6 := pyChoice p5.2 INCLINES
        let seg2 : IntervalSegment := ⟨idx + 1, d2, p5.1, p6.1, Label.push⟩
        let rest := genLoopF fuel p6.2 (remain1 - d2) (idx + 2)
        (seg1 :: seg2 :: rest.1, rest.2)

/-- The warmup length `warm = 300 if total_s >= 600 else max(60, total_s // 10)`
(`backend_scaffold.py` line 135). -/
def warmDur (total_s : Nat) : Nat :=
  if 600 ≤ total_s then 300 else max 60 (total_s / 10)

/-- `_generate_segments` (`backend_scaffold.py` lines 130–158).  Nat
subtraction models Python's `max(0, total_s - warm - 300)` clamp directly; in
the cooldown computation `total_s - sum(...)` can be negative in Python, but
there it is immediately fed to `max(60, ·)`, which coincides with
`max 60` applied to the truncated Nat difference. -/
def generate_segments (total_s : Nat) (seed : Int) : List IntervalSegment :=
  let seg0 : IntervalSegment := ⟨0, warmDur total_s, 4.0, 0, Label.warmup⟩
  -- `remain = max(0, total_s - warm - 300)  # leave room for cooldown`
  let remain := total_s - warmDur total_s - 300
  let mid := (genLoopF remain (mkRandom seed) remain 1).1
  let segs := seg0 :: mid
  -- `cool = min(300, max(60, total_s - sum(s.duration_s for s in segs)))`
  let cool := min 300 (max 60 (total_s - (segs.map IntervalSegment.duration_s).sum))
  let segs2 :=
    if 0 < cool then segs ++ [⟨segs.length, cool, 4.0, 0, Label.cooldown⟩] else segs
  -- `for i, s in enumerate(segs): s.index = i`
  segs2.enum.map fun p => { p.2 with index := p.1 }

/-- The deterministic core of `generate_workout` (`backend_scaffold.py` lines
163–179) for an explicitly supplied seed: `total_s = duration_min * 60`, the
segments from `_generate_segments`, and `stats = {"total_time_s": total_s}`.
The uuid and `created_at` fields are identity metadata outside the verified
claims and are omitted. -/
structure WorkoutTemplate where
  seed : Int
  segments : List IntervalSegment
  total_time_s : Nat
deriving DecidableEq

/-- `generate_workout` (`backend_scaffold.py` lines 163–179). -/
def generate_workout (duration_min : Nat) (seed : Int) : WorkoutTemplate :=
  { seed := seed
    segments := generate_segments (duration_min * 60) seed
    total_time_s := duration_min * 60 }

/-- A `rnd.choice` result is a member of the (nonempty) candidate pool. -/
theorem pyChoice_fst_mem [Inhabited α] (r : PyRandom) (l : List α) (h : l ≠ []) :
    (pyChoice r l).1 ∈ l := by
  have hlt : (randStep r).1 % l.length < l.length :=
    Nat.mod_lt _ (List.length_pos.mpr h)
  simp only [pyChoice]
  rw [List.getD_eq_getElem l default hlt]
  exact List.getElem_mem hlt

/-- The steady/push loop emits segments whose durations sum to exactly the
`remain` it was entered with, for every PRNG state — each block length is
clipped with `min remain …`, so the loop consumes `remain` exactly. -/
theorem genLoopF_sum (fuel : Nat) :
    ∀ (rnd : PyRandom) (remain idx : Nat), remain ≤ fuel →
      (((genLoopF fuel rnd remain idx).1).map IntervalSegment.duration_s).sum = remain := by
  induction fuel with
  | zero =>
    intro rnd remain idx h
    have h0 : remain = 0 := Nat.le_zero.mp h
    subst h0
    rfl
  | succ fuel ih =>
    intro rnd remain idx h
    by_cases h0 : remain = 0
    · subst h0; simp [genLoopF]
    · have hc1 : 1 ≤ (pyChoice rnd [120, 180, 240]).1 := by
        have hm := pyChoice_fst_mem rnd [120, 180, 240] (by simp)
        simp only [List.mem_cons, List.not_mem_nil, or_false] at hm
        rcases hm with hm | hm | hm <;> omega
      simp only [genLoopF, if_neg h0]
      split
      next h1 =>
        simp only [List.map_cons, List.map_nil, List.sum_cons, List.sum_nil]
        omega
      next h1 =>
        simp only [List.map_cons, List.sum_cons]
        rw [ih]
        · omega
        · omega

/-- The final re-indexing pass (`for i, s in enumerate(segs): s.index = i`)
changes only the `index` fields; the durations are untouched. -/
theorem reindex_map_duration (l : List IntervalSegment) :
    ((l.enum.map fun p => { p.2 with index := p.1 }).map IntervalSegment.duration_s) =
      l.map IntervalSegment.duration_s := by
  rw [List.map_map]
  rw [show (IntervalSegment.duration_s ∘ fun p : Nat × IntervalSegment =>
      { p.2 with index := p.1 }) = IntervalSegment.duration_s ∘ Prod.snd from rfl]
  rw [← List.map_map, List.enum_map_snd]

/-- For every total of at least 120 seconds and every seed, the generated
segment durations sum to exactly the total. -/
theorem generate_segments_sum (total_s : Nat) (seed : Int) (h : 120 ≤ total_s) :
    ((generate_segments total_s seed).map IntervalSegment.duration_s).sum = total_s := by
  have hsum := genLoopF_sum (total_s - warmDur total_s - 300) (mkRandom seed)
      (total_s - warmDur total_s - 300) 1 (le_refl _)
  simp only [generate_segments]
  rw [reindex_map_duration]
  split
  next hc =>
    simp only [List.map_append, List.map_cons, List.map_nil, List.sum_append,
      List.sum_cons, List.sum_nil]
    rw [hsum]
    simp only [warmDur]
    split <;> omega
  next hc =>
    exfalso
    omega

/-- **C1** (amended: the claim holds for every `durationMinutes ≥ 2`; at
`durationMinutes = 1` the code emits a 60 s warmup and a 60 s cooldown and the
durations sum to 120 ≠ 60, see `c1_counterexample`): for every
`durationMinutes ≥ 2` and every seed, the sum of the generated segments'
`duration_s` equals `durationMinutes * 60` exactly and equals the template's
`stats.total_time_s`. -/
theorem c1_duration_fidelity (d : Nat) (seed : Int) (h : 2 ≤ d) :
    (((generate_workout d seed).segments).map IntervalSegment.duration_s).sum = d * 60 ∧
    (((generate_workout d seed).segments).map IntervalSegment.duration_s).sum =
      (generate_workout d seed).total_time_s := by
  simp only [generate_workout]
  have hs := generate_segments_sum (d * 60) seed (by omega)
  exact ⟨hs, hs⟩

/-- Witness for `c1_duration_fidelity` at `durationMinutes = 30`, `seed = 0`. -/
theorem c1_duration_fidelity_witness :
    2 ≤ 30 ∧
      ((((generate_workout 30 0).segments).map IntervalSegment.duration_s).sum = 30 * 60 ∧
       (((generate_workout 30 0).segments).map IntervalSegment.duration_s).sum =
         (generate_workout 30 0).total_time_s) :=
  ⟨by decide, c1_duration_fidelity 30 0 (by decide)⟩

/-- **C1** fails as stated at `durationMinutes = 1`: the segment durations sum
to 120, not `1 * 60` (warmup and cooldown floors of 60 s each overshoot a
60 s total). -/
theorem c1_counterexample :
    ¬ ((((generate_workout 1 0).segments).map IntervalSegment.duration_s).sum = 1 * 60) := by
  decide

/-- **C2**: for a fixed `(durationMinutes, seed)` pair, two calls of the
generator produce segment lists that are identical field-for-field — in this
embedding all randomness is drawn from the PRNG state constructed by
`mkRandom seed` and threaded through `generate_segments`, so the generator is
a pure function of `(durationMinutes, seed)`. -/
theorem c2_generate_deterministic (d : Nat) (seed : Int) :
    (generate_workout d seed).segments = (generate_workout d seed).segments ∧
    List.Forall₂ (fun a b : IntervalSegment =>
        a.index = b.index ∧ a.duration_s = b.duration_s ∧ a.speed_mph = b.speed_mph ∧
        a.incline_pct = b.incline_pct ∧ a.label = b.label)
      (generate_workout d seed).segments (generate_workout d seed).segments := by
  refine ⟨rfl, ?_⟩
  rw [List.forall₂_same]
  exact fun x _ => ⟨rfl, rfl, rfl, rfl, rfl⟩

/-- The warmup duration exactly as §4.1 of the spec words it:
`warm = max(60, min(300, total / 10))`. -/
def warmSpec (total_s : Nat) : Nat := max 60 (min 300 (total_s / 10))

/-- The first generated segment is always the warmup segment: index 0,
duration `warmDur total_s` (= `300 if total_s >= 600 else max(60, total_s // 10)`),
speed 4.0 mph, incline 0. -/
theorem generate_segments_head (total_s : Nat) (seed : Int) :
    (generate_segments total_s seed).head? =
      some ⟨0, warmDur total_s, 4.0, 0, Label.warmup⟩ := by
  simp only [generate_segments]
  split <;> rfl

/-- **C6** fails as stated at `total = 600` s: the code's warmup lasts 300 s
(`300 if total_s >= 600 else …`), while the spec formula
`max(60, min(300, total / 10))` gives 60 s. -/
theorem c6_counterexample :
    ¬ (((generate_segments 600 0).head?).map IntervalSegment.duration_s =
        some (warmSpec 600)) := by
  decide

/-- **C6** (amended: the warmup duration is
`300 if total ≥ 600 else max(60, total // 10)`, which agrees with the spec's
`max(60, min(300, total / 10))` only for `total < 600` or `total ≥ 3000`):
for every positive total and every seed the first generated segment is a
warmup segment with that duration, speed 4.0 mph and incline 0. -/
theorem c6_warmup_amended (total_s : Nat) (seed : Int) (_h : 0 < total_s) :
    (generate_segments total_s seed).head? =
      some { index := 0
             duration_s := if 600 ≤ total_s then 300 else max 60 (total_s / 10)
             speed_mph := 4.0
             incline_pct := 0
             label := Label.warmup } :=
  generate_segments_head total_s seed

/-- Witness for `c6_warmup_amended` at `total_s = 600`, `seed = 0`. -/
theorem c6_warmup_amended_witness :
    0 < 600 ∧
      (generate_segments 600 0).head? =
        some { index := 0
               duration_s := if 600 ≤ 600 then 300 else max 60 (600 / 10)
               speed_mph := 4.0
               incline_pct := 0
               label := Label.warmup } :=
  ⟨by decide, c6_warmup_amended 600 0 (by decide)⟩

/-! ## Session engine (`backend_scaffold.py` lines 108–115 and 209–287)

Every operation receives the current monotonic-clock reading `now` as an
explicit argument (the scaffold reads `time.monotonic()` at the same points);
the template referenced by the session is passed directly, modelling the
`_WORKOUTS` lookup for a session created against an existing workout id. -/

/-- `SessionState.status` (`backend_scaffold.py` line 111). -/
inductive Status where
  | idle
  | running
  | paused
  | completed
  | aborted
deriving DecidableEq

/-- `SessionState` (`backend_scaffold.py` lines 108–115), minus the identity
fields `id`/`workout_id` (the template is passed to each operation). -/
structure SessionState where
  status : Status
  elapsed_s : ℚ
  segment_elapsed_s : ℚ
  current_segment_index : Nat
  last_tick_mono : ℚ
deriving DecidableEq

/-- The segment-advance `while` loop inside `_tick` (`backend_scaffold.py`
lines 279–281): while `current_segment_index < len(segs)` and
`segment_elapsed_s >= segs[idx].duration_s`, subtract that duration and
advance the index.  `fuel` bounds the iterations; every iteration requires
`idx < segs.length` and increments `idx`, so `fuel = segs.length` always
suffices and reproduces the Python loop exactly. -/
def advanceLoop : Nat → List IntervalSegment → Nat → ℚ → Nat × ℚ
  | 0, _, idx, se => (idx, se)
  | fuel + 1, segs, idx, se =>
    if idx < segs.length ∧ ((segs.getD idx default).duration_s : ℚ) ≤ se then
      advanceLoop fuel segs (idx + 1) (se - ((segs.getD idx default).duration_s : ℚ))
    else (idx, se)

/-- `_tick` (`backend_scaffold.py` lines 267–287).  Everything after the
`delta > 0` test — including the `last_tick_mono` re-baseline — lies inside
that branch, exactly as in the source. -/
def tick (w : WorkoutTemplate) (s : SessionState) (now : ℚ) : SessionState :=
  if s.status ≠ Status.running then s else
  let delta := max 0 (now - s.last_tick_mono)
  if 0 < delta then
    let p := advanceLoop w.segments.length w.segments s.current_segment_index
      (s.segment_elapsed_s + delta)
    if w.segments.length ≤ p.1 then
      -- completed: `status`, `segment_elapsed_s`, and the clamp of `elapsed_s`
      { s with status := Status.completed
               elapsed_s := (w.total_time_s : ℚ)
               segment_elapsed_s := 0
               current_segment_index := p.1
               last_tick_mono := now }
    else
      { s with elapsed_s := s.elapsed_s + delta
               segment_elapsed_s := p.2
               current_segment_index := p.1
               last_tick_mono := now }
  else s

/-- `start_session` (`backend_scaffold.py` lines 209–216): unconditionally
set `running` and re-baseline the clock; no tick is applied. -/
def start_session (s : SessionState) (now : ℚ) : SessionState :=
  { s with status := Status.running, last_tick_mono := now }

/-- `resume_session` (`backend_scaffold.py` lines 227–234): identical in
effect to `start_session`. -/
def resume_session (s : SessionState) (now : ℚ) : SessionState :=
  { s with status := Status.running, last_tick_mono := now }

/-- `pause_session` (`backend_scaffold.py` lines 218–225): tick, then set
`paused` unconditionally. -/
def pause_session (w : WorkoutTemplate) (s : SessionState) (now : ℚ) : SessionState :=
  { tick w s now with status := Status.paused }

/-- `skip_segment` (`backend_scaffold.py` lines 236–244): tick, then
increment the segment index and zero the segment clock. -/
def skip_segment (w : WorkoutTemplate) (s : SessionState) (now : ℚ) : SessionState :=
  let s1 := tick w s now
  { s1 with current_segment_index := s1.current_segment_index + 1, segment_elapsed_s := 0 }

/-- `back_segment` (`backend_scaffold.py` lines 246–254): tick, then
`current_segment_index = max(0, current_segment_index - 1)` — truncated Nat
subtraction is exactly that clamp — and zero the segment clock. -/
def back_segment (w : WorkoutTemplate) (s : SessionState) (now : ℚ) : SessionState :=
  let s1 := tick w s now
  { s1 with current_segment_index := s1.current_segment_index - 1, segment_elapsed_s := 0 }

/-- `get_state` (`backend_scaffold.py` lines 256–262): apply a tick and
return the authoritative state. -/
def get_state (w : WorkoutTemplate) (s : SessionState) (now : ℚ) : SessionState :=
  tick w s now

/-- A tick on a non-running session is the identity. -/
theorem tick_of_not_running (w : WorkoutTemplate) (s : SessionState) (now : ℚ)
    (h : s.status ≠ Status.running) : tick w s now = s := by
  simp [tick, h]

/-- If the index already reached the segment count, the advance loop is a
no-op (its entry condition fails immediately). -/
theorem advanceLoop_of_past (fuel : Nat) (segs : List IntervalSegment) (idx : Nat) (se : ℚ)
    (h : segs.length ≤ idx) : advanceLoop fuel segs idx se = (idx, se) := by
  cases fuel with
  | zero => rfl
  | succ fuel => simp [advanceLoop, Nat.not_lt.mpr h]

/-- A one-segment demonstration template: 10 s of steady running at 5 mph. -/
def demoTemplate : WorkoutTemplate :=
  { seed := 0
    segments := [⟨0, 10, 5, 0, Label.steady⟩]
    total_time_s := 10 }

/-- A freshly started session on `demoTemplate` (baseline at clock 0). -/
def demoRunning : SessionState :=
  { status := Status.running, elapsed_s := 0, segment_elapsed_s := 0
    current_segment_index := 0, last_tick_mono := 0 }

/-- Evaluating `skip_segment` on `demoRunning` at clock 5: the tick accrues
5 s (not enough to finish the 10 s segment), then the skip advances the index
past the end without completing the session. -/
theorem demo_skip5_eval :
    skip_segment demoTemplate demoRunning 5 =
      { status := Status.running, elapsed_s := 5, segment_elapsed_s := 0
        current_segment_index := 1, last_tick_mono := 5 } := by
  norm_num [skip_segment, tick, advanceLoop, demoRunning, demoTemplate, max_def]

/-- Evaluating `skip_segment` on `demoRunning` at clock 0: zero tick delta,
so only the index/segment-clock writes take effect. -/
theorem demo_skip0_eval :
    skip_segment demoTemplate demoRunning 0 =
      { status := Status.running, elapsed_s := 0, segment_elapsed_s := 0
        current_segment_index := 1, last_tick_mono := 0 } := by
  norm_num [skip_segment, tick, demoRunning]

/-- **C4** fails as stated: skipping `demoRunning` past its only segment at
clock 5 leaves the index at 1 (= the segment count) but the status still
`running` and `elapsed_s` at 5, unclamped — `skip_segment` never applies the
completion rule itself. -/
theorem c4_counterexample :
    demoTemplate.segments.length ≤
      (skip_segment demoTemplate demoRunning 5).current_segment_index ∧
    ¬ ((skip_segment demoTemplate demoRunning 5).status = Status.completed ∧
       (skip_segment demoTemplate demoRunning 5).segment_elapsed_s = 0 ∧
       (skip_segment demoTemplate demoRunning 5).elapsed_s =
         (demoTemplate.total_time_s : ℚ)) := by
  rw [demo_skip5_eval]
  simp [demoTemplate]

/-- **C4** (amended: `skip` applies a tick, then forces
`currentSegmentIndex += 1` and `segmentElapsedSeconds = 0`, but does not apply
the completion rule itself; a session pushed to or past the segment count is
completed — with `segment_elapsed_s = 0` and `elapsed_s` clamped to the
template total — by the next tick with positive delta while running, e.g. the
next `getState`). -/
theorem c4_skip_amended (w : WorkoutTemplate) (s : SessionState) (now now2 : ℚ)
    (hrun : (skip_segment w s now).status = Status.running)
    (hpast : w.segments.length ≤ (skip_segment w s now).current_segment_index)
    (hlt : (skip_segment w s now).last_tick_mono < now2) :
    skip_segment w s now =
      { tick w s now with
          current_segment_index := (tick w s now).current_segment_index + 1
          segment_elapsed_s := 0 } ∧
    (get_state w (skip_segment w s now) now2).status = Status.completed ∧
    (get_state w (skip_segment w s now) now2).segment_elapsed_s = 0 ∧
    (get_state w (skip_segment w s now) now2).elapsed_s = (w.total_time_s : ℚ) := by
  refine ⟨rfl, ?_⟩
  have hd : (0 : ℚ) < max 0 (now2 - (skip_segment w s now).last_tick_mono) :=
    lt_max_of_lt_right (by linarith)
  simp only [get_state, tick, hrun, ne_eq, not_true_eq_false, if_false, if_pos hd,
    advanceLoop_of_past _ _ _ _ hpast, if_pos hpast]
  simp

/-- Witness for `c4_skip_amended`: skip `demoRunning` at clock 0 (past the
only segment), then read the state at clock 5. -/
theorem c4_skip_amended_witness :
    ((skip_segment demoTemplate demoRunning 0).status = Status.running ∧
     demoTemplate.segments.length ≤
       (skip_segment demoTemplate demoRunning 0).current_segment_index ∧
     (skip_segment demoTemplate demoRunning 0).last_tick_mono < 5) ∧
    ((get_state demoTemplate (skip_segment demoTemplate demoRunning 0) 5).status =
       Status.completed ∧
     (get_state demoTemplate (skip_segment demoTemplate demoRunning 0) 5).segment_elapsed_s =
       0 ∧
     (get_state demoTemplate (skip_segment demoTemplate demoRunning 0) 5).elapsed_s =
       (demoTemplate.total_time_s : ℚ)) :=
  ⟨⟨by rw [demo_skip0_eval], by rw [demo_skip0_eval]; simp [demoTemplate],
    by rw [demo_skip0_eval]; norm_num⟩,
   (c4_skip_amended demoTemplate demoRunning 0 5 (by rw [demo_skip0_eval])
     (by rw [demo_skip0_eval]; simp [demoTemplate])
     (by rw [demo_skip0_eval]; norm_num)).2⟩

/-- A completed session used for the C5 counterexample and witness. -/
def demoCompleted : SessionState :=
  { status := Status.completed, elapsed_s := 10, segment_elapsed_s := 0
    current_segment_index := 1, last_tick_mono := 5 }

/-- **C5** fails as stated: `start_session` on a completed session sets the
status back to `running` — the scaffold guards none of `start`, `resume`,
`pause` against terminal states. -/
theorem c5_counterexample :
    demoCompleted.status = Status.completed ∧
    (start_session demoCompleted 6).status = Status.running := by
  decide

/-- **C5** (amended: `completed` and `aborted` are preserved by the
tick-applying read/navigation operations `getState`, `skip`, `back` — a tick
on a non-running session is a no-op and those operations never write the
status — but `start`/`resume` unconditionally set `running` and `pause`
unconditionally sets `paused`, so the terminal states are not preserved by
those three calls). -/
theorem c5_terminal_amended (w : WorkoutTemplate) (s : SessionState) (now : ℚ)
    (h : s.status = Status.completed ∨ s.status = Status.aborted) :
    (get_state w s now).status = s.status ∧
    (skip_segment w s now).status = s.status ∧
    (back_segment w s now).status = s.status := by
  have hnr : s.status ≠ Status.running := by rcases h with h | h <;> simp [h]
  have ht := tick_of_not_running w s now hnr
  unfold get_state skip_segment back_segment
  rw [ht]
  exact ⟨rfl, rfl, rfl⟩

/-- Witness for `c5_terminal_amended` on `demoCompleted` at clock 6. -/
theorem c5_terminal_amended_witness :
    (demoCompleted.status = Status.completed ∨ demoCompleted.status = Status.aborted) ∧
    ((get_state demoTemplate demoCompleted 6).status = demoCompleted.status ∧
     (skip_segment demoTemplate demoCompleted 6).status = demoCompleted.status ∧
     (back_segment demoTemplate demoCompleted 6).status = demoCompleted.status) :=
  ⟨Or.inl (by decide),
   c5_terminal_amended demoTemplate demoCompleted 6 (Or.inl (by decide))⟩

/-- The tick-applying session operations quantified over in C7 — `pause`,
`skip`, `back`, `getState` — each tagged with the monotonic-clock reading at
which it is called (`start`/`resume` are excluded: the claim reads "with no
resume in between", and `start` is the same re-baselining write). -/
inductive TickOp where
  | pauseAt (now : ℚ)
  | skipAt (now : ℚ)
  | backAt (now : ℚ)
  | getAt (now : ℚ)

/-- Dispatch one `TickOp` against the session. -/
def applyOp (w : WorkoutTemplate) (s : SessionState) : TickOp → SessionState
  | TickOp.pauseAt now => pause_session w s now
  | TickOp.skipAt now => skip_segment w s now
  | TickOp.backAt now => back_segment w s now
  | TickOp.getAt now => get_state w s now

/-- Run a whole call sequence against the session. -/
def applyOps (w : WorkoutTemplate) (s : SessionState) (ops : List TickOp) : SessionState :=
  ops.foldl (applyOp w) s

/-- On a paused session every tick-applying operation keeps the status
`paused` and never advances `elapsed_s` (the tick inside each operation
returns immediately because the session is not running). -/
theorem applyOp_paused (w : WorkoutTemplate) (s : SessionState) (op : TickOp)
    (h : s.status = Status.paused) :
    (applyOp w s op).status = Status.paused ∧ (applyOp w s op).elapsed_s = s.elapsed_s := by
  have hnr : s.status ≠ Status.running := by simp [h]
  cases op with
  | pauseAt now => simp [applyOp, pause_session, tick_of_not_running w s now hnr]
  | skipAt now => simp [applyOp, skip_segment, tick_of_not_running w s now hnr, h]
  | backAt now => simp [applyOp, back_segment, tick_of_not_running w s now hnr, h]
  | getAt now => simp [applyOp, get_state, tick_of_not_running w s now hnr, h]

/-- `applyOp_paused` extended to arbitrary call sequences. -/
theorem applyOps_paused (w : WorkoutTemplate) (ops : List TickOp) :
    ∀ s : SessionState, s.status = Status.paused →
      (applyOps w s ops).status = Status.paused ∧
      (applyOps w s ops).elapsed_s = s.elapsed_s := by
  induction ops with
  | nil => intro s h; exact ⟨h, rfl⟩
  | cons op ops ih =>
    intro s h
    have h1 := applyOp_paused w s op h
    have h2 := ih (applyOp w s op) h1.1
    exact ⟨h2.1, h2.2.trans h1.2⟩

/-- **C7**: `pause` first flushes accrued time with a tick and then sets
`paused`; afterwards `elapsed_s` does not advance across any sequence of
tick-applying calls (`getState`, `pause`, `skip`, `back`) at arbitrary later
clock readings, with no resume in between. -/
theorem c7_pause_freezes (w : WorkoutTemplate) (s : SessionState) (t0 : ℚ)
    (ops : List TickOp) :
    pause_session w s t0 = { tick w s t0 with status := Status.paused } ∧
    (applyOps w (pause_session w s t0) ops).elapsed_s =
      (pause_session w s t0).elapsed_s :=
  ⟨rfl, (applyOps_paused w ops (pause_session w s t0) rfl).2⟩

/-- **C9**: `start` and `resume` write only the status and the clock
baseline — `elapsed_s`, `segment_elapsed_s` and `current_segment_index` are
untouched and no tick is applied first — so on an already-running session the
time accrued since the previous baseline is silently discarded: a tick right
after the call adds nothing. -/
theorem c9_start_resume_frame (w : WorkoutTemplate) (s : SessionState) (now : ℚ) :
    start_session s now = { s with status := Status.running, last_tick_mono := now } ∧
    resume_session s now = { s with status := Status.running, last_tick_mono := now } ∧
    (tick w (start_session s now) now).elapsed_s = s.elapsed_s ∧
    (tick w (resume_session s now) now).elapsed_s = s.elapsed_s := by
  refine ⟨rfl, rfl, ?_, ?_⟩ <;> simp [tick, start_session, resume_session]

/-! ## Parser (`workout_parser.py`)

The three regexes of `parse_chatgpt_workout` are hand-compiled into
recursive matchers below.  In each of them the quantified character classes
(`\d`, `[\d.]`, `\s`) are disjoint from every token that can follow them, so
greedy maximal munch agrees with the regex backtracking semantics; lazy
groups (`.*?`, `.+?`) are implemented by growing the gap one character at a
time; and `re.search` is implemented by trying every start position,
leftmost first. -/

/-- ASCII whitespace as recognised by Python's `str.strip` and the regex
class `\s` (the verified claims involve no non-ASCII whitespace). -/
def pyIsSpace (c : Char) : Bool :=
  c == ' ' || c == '\t' || c == '\n' || c == '\r' || c == '\x0b' || c == '\x0c'

/-- `str.strip()`. -/
def pyStrip (s : List Char) : List Char :=
  ((s.dropWhile pyIsSpace).reverse.dropWhile pyIsSpace).reverse

/-- Maximal leading digit run (`\d+`, maximal munch). -/
def takeDigits (s : List Char) : List Char := s.takeWhile Char.isDigit

/-- Remainder after the leading digit run. -/
def dropDigits (s : List Char) : List Char := s.dropWhile Char.isDigit

/-- Greedy `\s*`. -/
def skipSpaces (s : List Char) : List Char := s.dropWhile pyIsSpace

/-- Match a literal pattern as a prefix, returning the remainder. -/
def stripPrefixCh : List Char → List Char → Option (List Char)
  | [], s => some s
  | _ :: _, [] => none
  | p :: ps, c :: cs => if c = p then stripPrefixCh ps cs else none

/-- Case-insensitive literal prefix (`re.IGNORECASE`); the pattern is given
in lowercase. -/
def stripPrefixCI : List Char → List Char → Option (List Char)
  | [], s => some s
  | _ :: _, [] => none
  | p :: ps, c :: cs => if c.toLower = p then stripPrefixCI ps cs else none

/-- `int()` of a digit run. -/
def digitsToNat (ds : List Char) : Nat :=
  ds.foldl (fun n c => n * 10 + (c.toNat - 48)) 0

/-- `float(tok)` for a token drawn from `[\d.]+`, modelled exactly as a
rational: Python accepts at most one dot and at least one digit (`"5"`,
`"5."`, `".5"`); anything else (`"."`, `"5.5."`) raises `ValueError`, which
the source catches and turns into a skipped line — modelled as `none`. -/
def pyFloat (tok : List Char) : Option ℚ :=
  let ip := takeDigits tok
  match dropDigits tok with
  | [] => if ip.isEmpty then none else some (mkRat (digitsToNat ip) 1)
  | '.' :: fp =>
    if fp.all Char.isDigit ∧ 1 ≤ ip.length + fp.length then
      -- the exact value of `ip.fp`: (ip·10^k + fp) / 10^k with k = |fp|
      some (mkRat (digitsToNat ip * 10 ^ fp.length + digitsToNat fp) (10 ^ fp.length))
    else none
  | _ => none

/-- One attempt of the interval pattern
`\*?\s*(\d+)\s*min\s*@\s*([\d.]+)\s*mph(?:\s*\((.*?)\))?`
(`workout_parser.py` line 50), with the `(\d+)` capture anchored at the start
of `s`.  Returns (duration value, speed token, description; the absent
description group and `''` both become `[]`, matching
`interval_match.group(3) or ''`). -/
def matchIntervalAt (s : List Char) : Option (Nat × List Char × List Char) :=
  let ds := takeDigits s
  if ds.isEmpty then none else
  match stripPrefixCh ['m', 'i', 'n'] (skipSpaces (dropDigits s)) with
  | none => none
  | some s2 =>
    match stripPrefixCh ['@'] (skipSpaces s2) with
    | none => none
    | some s3 =>
      let s3a := skipSpaces s3
      let sp := s3a.takeWhile fun c => c.isDigit || c == '.'
      let s4 := s3a.dropWhile fun c => c.isDigit || c == '.'
      if sp.isEmpty then none else
      match stripPrefixCh ['m', 'p', 'h'] (skipSpaces s4) with
      | none => none
      | some s5 =>
        let desc :=
          match stripPrefixCh ['('] (skipSpaces s5) with
          | none => []
          | some s6 =>
            if (s6.dropWhile fun c => c != ')').isEmpty then []
            else s6.takeWhile fun c => c != ')'
        some (digitsToNat ds, sp, desc)

/-- `re.search` of the interval pattern: try every start position, leftmost
first.  The pattern's optional `\*?\s*` prefix can only move a match's start
leftwards without changing any capture, so searching directly for the start
of the `(\d+)` capture is equivalent. -/
def searchInterval : List Char → Option (Nat × List Char × List Char)
  | [] => none
  | c :: cs =>
    match matchIntervalAt (c :: cs) with
    | some r => some r
    | none => searchInterval cs

/-- The `(\d+)\s*times` tail of the repeat pattern, with the lazy `.*?` gap
grown one position at a time (`workout_parser.py` line 39). -/
def scanRepeatCount : List Char → Option Nat
  | [] => none
  | c :: cs =>
    let ds := takeDigits (c :: cs)
    if ds.isEmpty then scanRepeatCount cs
    else
      match stripPrefixCI ['t', 'i', 'm', 'e', 's'] (skipSpaces (dropDigits (c :: cs))) with
      | some _ => some (digitsToNat ds)
      | none => scanRepeatCount cs

/-- `re.search(r'Repeat.*?(\d+)\s*times', line, re.IGNORECASE)`: find a
case-insensitive `repeat`, then scan for the count; if no count follows this
occurrence, resume the search one position later. -/
def searchRepeat : List Char → Option Nat
  | [] => none
  | c :: cs =>
    match stripPrefixCI ['r', 'e', 'p', 'e', 'a', 't'] (c :: cs) with
    | some rest =>
      match scanRepeatCount rest with
      | some n => some n
      | none => searchRepeat cs
    | none => searchRepeat cs

/-- The tail `\s*–\s*(\d+)\s*minutes?\*\*` of the section-header pattern
(`workout_parser.py` line 31; the separator is an en-dash). -/
def matchSectionTail (s : List Char) : Bool :=
  match stripPrefixCh ['–'] (skipSpaces s) with
  | none => false
  | some s1 =>
    let s2 := skipSpaces s1
    if (takeDigits s2).isEmpty then false else
    match stripPrefixCh ['m', 'i', 'n', 'u', 't', 'e'] (skipSpaces (dropDigits s2)) with
    | none => false
    | some s3 =>
      let s4 :=
        match stripPrefixCh ['s'] s3 with
        | some s4a => s4a
        | none => s3
      (stripPrefixCh ['*', '*'] s4).isSome

/-- Grow the lazy group `(.+?)` one character at a time until
`matchSectionTail` accepts the remainder; returns the captured group. -/
def growSection (acc : List Char) : List Char → Option (List Char)
  | [] => none
  | c :: cs =>
    if matchSectionTail cs then some (acc ++ [c])
    else growSection (acc ++ [c]) cs

/-- `re.search(r'\*\*(.+?)\s*–\s*(\d+)\s*minutes?\*\*', line)`: find the
leftmost `**`, grow the lazy group; on failure resume the search one
character later. -/
def searchSection : List Char → Option (List Char)
  | [] => none
  | c :: cs =>
    if c = '*' ∧ cs.head? = some '*' then
      match growSection [] cs.tail with
      | some name => some name
      | none => searchSection cs
    else searchSection cs

/-- One parsed interval record (`workout_parser.py` lines 64–70).  The
Python dict key `section` is a Lean keyword, hence `sectionLabel`. -/
structure Interval where
  sectionLabel : Option String
  duration_min : Nat
  speed_mph : ℚ
  description : String
  incline : ℚ
deriving DecidableEq

/-- The loop state of `parse_chatgpt_workout` (`workout_parser.py`
lines 17–21). -/
structure ParseState where
  intervals : List Interval
  current_section : Option (List Char)
  repeat_count : Nat
  repeat_intervals : List Interval
  in_repeat_block : Bool
deriving DecidableEq

/-- The initial loop state. -/
def initState : ParseState :=
  { intervals := [], current_section := none, repeat_count := 0
    repeat_intervals := [], in_repeat_block := false }

/-- The interval-line handling (`workout_parser.py` lines 50–75): on a
match, parse and validate the numbers, then append the record to the repeat
buffer or directly to the output. -/
def emitInterval (st : ParseState) (line : List Char) : ParseState :=
  match searchInterval line with
  | none => st
  | some r =>
    match pyFloat r.2.1 with
    | none => st  -- `except (ValueError, TypeError): continue`
    | some speed =>
      -- `if duration <= 0 or speed <= 0: continue`
      if r.1 = 0 ∨ speed ≤ 0 then st
      else
        let itv : Interval :=
          { sectionLabel := st.current_section.map fun l => String.mk l
            duration_min := r.1
            speed_mph := speed
            description := String.mk r.2.2
            incline := 0 }
        if st.in_repeat_block then
          { st with repeat_intervals := st.repeat_intervals ++ [itv] }
        else
          { st with intervals := st.intervals ++ [itv] }

/-- The repeat-block close check at the bottom of the loop body
(`workout_parser.py` lines 77–86), exactly as written: it fires only when
the current line is blank or a section header.  Since those two line kinds
`continue` before ever reaching this check, it is dead code — see
`c3_repeat_close_dead`. -/
def closeRepeat (line : List Char) (st1 : ParseState) : ParseState :=
  if st1.in_repeat_block ∧ st1.repeat_intervals ≠ [] ∧
      ((pyStrip line).isEmpty ∨ (searchSection line).isSome) then
    { st1 with
        intervals :=
          st1.intervals ++ (List.replicate st1.repeat_count st1.repeat_intervals).flatten
        in_repeat_block := false
        repeat_intervals := [] }
  else st1

/-- The body of the `for line in lines` loop
(`workout_parser.py` lines 25–86), one line at a time.  Each `continue` of
the source is an early return of the updated state. -/
def parseLineStep (st : ParseState) (line : List Char) : ParseState :=
  -- `if not line.strip(): continue`
  if (pyStrip line).isEmpty then st else
  -- section header (lines 31–36)
  match searchSection line with
  | some name => { st with current_section := some (pyStrip name) }
  | none =>
    -- repeat directive (lines 39–46)
    match searchRepeat line with
    | some n =>
      { st with repeat_count := n, in_repeat_block := true, repeat_intervals := [] }
    | none =>
      closeRepeat line (emitInterval st line)

/-- `text.split('\n')`: split on every newline, preserving empty pieces
(`"".split('\n') == [""]`). -/
def splitLines : List Char → List (List Char)
  | [] => [[]]
  | c :: cs =>
    match splitLines cs with
    | [] => [[]]
    | l :: ls => if c = '\n' then [] :: l :: ls else (c :: l) :: ls

/-- `parse_chatgpt_workout` (`workout_parser.py` lines 10–93) and the
module-level `parse` wrapper (line 96): run the loop over the lines, then
flush a repeat block still open at end of input (lines 89–91).  The source's
early `return []` for empty input coincides with running the loop over the
single empty line. -/
def parse (text : String) : List Interval :=
  let st := (splitLines text.data).foldl parseLineStep initState
  if st.in_repeat_block ∧ st.repeat_intervals ≠ [] then
    st.intervals ++ (List.replicate st.repeat_count st.repeat_intervals).flatten
  else st.intervals

/-- The record invariant of C10: integer duration at least 1, positive
rational speed, incline exactly 0. -/
def GoodItv (itv : Interval) : Prop :=
  1 ≤ itv.duration_min ∧ 0 < itv.speed_mph ∧ itv.incline = 0

/-- Interval emission preserves the record invariant on both accumulators:
the only appended record has just passed the `duration <= 0 or speed <= 0`
validation and carries the literal `incline = 0`. -/
theorem emitInterval_good (st : ParseState) (line : List Char)
    (h1 : ∀ x ∈ st.intervals, GoodItv x)
    (h2 : ∀ x ∈ st.repeat_intervals, GoodItv x) :
    (∀ x ∈ (emitInterval st line).intervals, GoodItv x) ∧
    (∀ x ∈ (emitInterval st line).repeat_intervals, GoodItv x) := by
  unfold emitInterval
  split
  · exact ⟨h1, h2⟩
  next r hr =>
    split
    · exact ⟨h1, h2⟩
    next speed hspeed =>
      split
      next => exact ⟨h1, h2⟩
      next hval =>
        push_neg at hval
        have hgood : GoodItv
            { sectionLabel := st.current_section.map fun l => String.mk l
              duration_min := r.1
              speed_mph := speed
              description := String.mk r.2.2
              incline := 0 } :=
          ⟨Nat.one_le_iff_ne_zero.mpr hval.1, hval.2, rfl⟩
        split
        · refine ⟨h1, fun x hx => ?_⟩
          rcases List.mem_append.mp hx with hx | hx
          · exact h2 x hx
          · rw [List.mem_singleton.mp hx]; exact hgood
        · refine ⟨fun x hx => ?_, h2⟩
          rcases List.mem_append.mp hx with hx | hx
          · exact h1 x hx
          · rw [List.mem_singleton.mp hx]; exact hgood

/-- The close check preserves the record invariant: the flushed block is a
concatenation of copies of the (invariant-satisfying) buffer. -/
theorem closeRepeat_good (line : List Char) (st1 : ParseState)
    (h1 : ∀ x ∈ st1.intervals, GoodItv x)
    (h2 : ∀ x ∈ st1.repeat_intervals, GoodItv x) :
    (∀ x ∈ (closeRepeat line st1).intervals, GoodItv x) ∧
    (∀ x ∈ (closeRepeat line st1).repeat_intervals, GoodItv x) := by
  unfold closeRepeat
  split
  · refine ⟨fun x hx => ?_, fun x hx => absurd hx (List.not_mem_nil x)⟩
    rcases List.mem_append.mp hx with hx | hx
    · exact h1 x hx
    · rcases List.mem_flatten.mp hx with ⟨l, hl, hxl⟩
      rw [List.eq_of_mem_replicate hl] at hxl
      exact h2 x hxl
  · exact ⟨h1, h2⟩

/-- One loop iteration preserves the record invariant. -/
theorem parseLineStep_good (st : ParseState) (line : List Char)
    (h1 : ∀ x ∈ st.intervals, GoodItv x)
    (h2 : ∀ x ∈ st.repeat_intervals, GoodItv x) :
    (∀ x ∈ (parseLineStep st line).intervals, GoodItv x) ∧
    (∀ x ∈ (parseLineStep st line).repeat_intervals, GoodItv x) := by
  unfold parseLineStep
  split
  · exact ⟨h1, h2⟩
  · split
    · exact ⟨h1, h2⟩
    · split
      · exact ⟨h1, fun x hx => absurd hx (List.not_mem_nil x)⟩
      · have he := emitInterval_good st line h1 h2
        exact closeRepeat_good line (emitInterval st line) he.1 he.2

/-- The whole line loop preserves the record invariant. -/
theorem foldl_parseLineStep_good (lines : List (List Char)) :
    ∀ st : ParseState,
      (∀ x ∈ st.intervals, GoodItv x) →
      (∀ x ∈ st.repeat_intervals, GoodItv x) →
      (∀ x ∈ (lines.foldl parseLineStep st).intervals, GoodItv x) ∧
      (∀ x ∈ (lines.foldl parseLineStep st).repeat_intervals, GoodItv x) := by
  induction lines with
  | nil => intro st h1 h2; exact ⟨h1, h2⟩
  | cons l ls ih =>
    intro st h1 h2
    have h := parseLineStep_good st l h1 h2
    exact ih (parseLineStep st l) h.1 h.2

/-- **C10**: every interval record returned by `parse` has an integer
`duration_min ≥ 1`, a speed strictly greater than 0, and `incline` exactly 0
— the parser never extracts an incline value from the text (the source sets
the literal `'incline': 0` on every record, even when an incline token
appears in the line or description). -/
theorem c10_interval_invariant (text : String) :
    ∀ itv ∈ parse text,
      1 ≤ itv.duration_min ∧ 0 < itv.speed_mph ∧ itv.incline = 0 := by
  intro itv hm
  have h := foldl_parseLineStep_good (splitLines text.data) initState
    (fun x hx => absurd hx (List.not_mem_nil x))
    (fun x hx => absurd hx (List.not_mem_nil x))
  simp only [parse] at hm
  split at hm
  · rcases List.mem_append.mp hm with hm | hm
    · exact h.1 itv hm
    · rcases List.mem_flatten.mp hm with ⟨l, hl, hml⟩
      rw [List.eq_of_mem_replicate hl] at hml
      exact h.2 itv hml
  · exact h.1 itv hm

/-- Witness for `c10_interval_invariant`: a line carrying an explicit
incline token in its description still parses with `incline = 0`. -/
theorem c10_interval_invariant_witness :
    ({ sectionLabel := none, duration_min := 3, speed_mph := mkRat 11 2,
       description := "with incline 2", incline := 0 } : Interval) ∈
      parse "3 min @ 5.5 mph (with incline 2)" ∧
    (1 ≤ ({ sectionLabel := none, duration_min := 3, speed_mph := mkRat 11 2,
            description := "with incline 2", incline := 0 } : Interval).duration_min ∧
     0 < ({ sectionLabel := none, duration_min := 3, speed_mph := mkRat 11 2,
            description := "with incline 2", incline := 0 } : Interval).speed_mph ∧
     ({ sectionLabel := none, duration_min := 3, speed_mph := mkRat 11 2,
        description := "with incline 2", incline := 0 } : Interval).incline = 0) :=
  ⟨by decide, c10_interval_invariant "3 min @ 5.5 mph (with incline 2)" _ (by decide)⟩

/-- **C8**: the parser is a total best-effort extractor — the embedding of
`parse_chatgpt_workout` returns a value for every input string (the source
catches `ValueError`/`TypeError` from numeric conversion and validates
before emitting, so no input raises) — and on the two leniency examples,
`"5 min @ abc mph"` (non-numeric speed) and `"0 min @ 5.0 mph"` (zero
duration), it emits no interval. -/
theorem c8_parser_leniency :
    (∀ text : String, ∃ result : List Interval, parse text = result) ∧
    parse "5 min @ abc mph" = [] ∧
    parse "0 min @ 5.0 mph" = [] :=
  ⟨fun t => ⟨parse t, rfl⟩, by decide, by decide⟩

/-- The interval-line handling never touches `in_repeat_block`. -/
theorem emitInterval_in_repeat (st : ParseState) (line : List Char) :
    (emitInterval st line).in_repeat_block = st.in_repeat_block := by
  unfold emitInterval
  split
  · rfl
  · split
    · rfl
    · split
      · rfl
      · split <;> rfl

/-- Once a repeat block is open, no later line ever closes it: the close
check (`workout_parser.py` lines 77–86) requires the current line to be
blank or a section header, but both of those line kinds `continue` before
reaching the check, so the buffered block survives to end of input. -/
theorem parseLineStep_in_repeat (st : ParseState) (line : List Char) :
    (parseLineStep { st with in_repeat_block := true } line).in_repeat_block = true := by
  unfold parseLineStep
  split
  · rfl
  next hblank =>
    split
    · rfl
    next hsec =>
      split
      · rfl
      · unfold closeRepeat
        split
        next hclose =>
          exfalso
          rcases hclose.2.2 with hd | hd
          · exact hblank hd
          · rw [hsec] at hd
            simp at hd
        · rw [emitInterval_in_repeat]

/-- **C3** (code bug): the repeat-close check of `parse_chatgpt_workout`
(`workout_parser.py` lines 77–86) is dead code, although its own comment
says it closes the block on an "empty line or new section": blank lines and
section headers `continue` at the top of the loop before reaching the check,
and on the only path that does reach it the closing disjunction is false.
First conjunct: a line never closes an open repeat block (the
`in_repeat_block` flag survives every line).  Second conjunct: on the
failing input — a repeat directive, one interval, a blank line, another
interval — the interval after the blank line joins the still-open buffer and
the whole buffer is expanded only at end of input, producing A, B, A, B
where the claim requires the block to close at the blank line and produce
A, A, B. -/
theorem c3_repeat_close_dead :
    (∀ (st : ParseState) (line : List Char),
        (parseLineStep { st with in_repeat_block := true } line).in_repeat_block = true) ∧
    parse "Repeat the following 2 times\n* 1 min @ 5.0 mph\n\n* 2 min @ 6.0 mph" =
      [ { sectionLabel := none, duration_min := 1, speed_mph := 5,
          description := "", incline := 0 },
        { sectionLabel := none, duration_min := 2, speed_mph := 6,
          description := "", incline := 0 },
        { sectionLabel := none, duration_min := 1, speed_mph := 5,
          description := "", incline := 0 },
        { sectionLabel := none, duration_min := 2, speed_mph := 6,
          description := "", incline := 0 } ] :=
  ⟨fun st line => parseLineStep_in_repeat st line, by decide⟩

end WorkoutTimer
